import Mathlib

/-!
Verification of the fetch-and-cache client of the SpaceX Launch Tracker
(`src/spacex/api_client.py`, class `SpaceXAPIClient`).

The client's observable state is the cache directory: a collection of files,
each with a name, a content and a modification time.  File contents are JSON
texts; a text either parses to a JSON value or fails to parse (raising
`json.JSONDecodeError` in the source).  Times are modelled as integer seconds.

Python has no option type: `_read_cache` signals a miss by returning `None`,
which is the same object as the JSON value `null`.  The model mirrors this:
`ReadResult.value Json.null` is Python `None`.  Exceptions that escape a
function are modelled explicitly (`ReadResult.exn`, `ReqOutcome`).
-/

namespace SpacexClient

/-- JSON values as produced by `json.load` / `response.json()`.
Numbers are modelled as integers (timestamps in seconds). -/
inductive Json where
  | null : Json
  | bool (b : Bool) : Json
  | num (n : Int) : Json
  | str (s : String) : Json
  | arr (xs : List Json) : Json
  | obj (fields : List (String × Json)) : Json

/- Decidable equality for `Json`, by mutual recursion (the derive handler
does not support the nested occurrences in `arr` and `obj`). -/
mutual

def jsonDecEq : (a b : Json) → Decidable (a = b)
  | .null, .null => isTrue rfl
  | .bool a, .bool b =>
    match decEq a b with
    | isTrue h => isTrue (by rw [h])
    | isFalse h => isFalse (by intro hc; cases hc; exact h rfl)
  | .num a, .num b =>
    match decEq a b with
    | isTrue h => isTrue (by rw [h])
    | isFalse h => isFalse (by intro hc; cases hc; exact h rfl)
  | .str a, .str b =>
    match decEq a b with
    | isTrue h => isTrue (by rw [h])
    | isFalse h => isFalse (by intro hc; cases hc; exact h rfl)
  | .arr xs, .arr ys =>
    match jsonDecEqList xs ys with
    | isTrue h => isTrue (by rw [h])
    | isFalse h => isFalse (by intro hc; cases hc; exact h rfl)
  | .obj xs, .obj ys =>
    match jsonDecEqFields xs ys with
    | isTrue h => isTrue (by rw [h])
    | isFalse h => isFalse (by intro hc; cases hc; exact h rfl)
  | .null, .bool _ => isFalse (by intro h; cases h)
  | .null, .num _ => isFalse (by intro h; cases h)
  | .null, .str _ => isFalse (by intro h; cases h)
  | .null, .arr _ => isFalse (by intro h; cases h)
  | .null, .obj _ => isFalse (by intro h; cases h)
  | .bool _, .null => isFalse (by intro h; cases h)
  | .bool _, .num _ => isFalse (by intro h; cases h)
  | .bool _, .str _ => isFalse (by intro h; cases h)
  | .bool _, .arr _ => isFalse (by intro h; cases h)
  | .bool _, .obj _ => isFalse (by intro h; cases h)
  | .num _, .null => isFalse (by intro h; cases h)
  | .num _, .bool _ => isFalse (by intro h; cases h)
  | .num _, .str _ => isFalse (by intro h; cases h)
  | .num _, .arr _ => isFalse (by intro h; cases h)
  | .num _, .obj _ => isFalse (by intro h; cases h)
  | .str _, .null => isFalse (by intro h; cases h)
  | .str _, .bool _ => isFalse (by intro h; cases h)
  | .str _, .num _ => isFalse (by intro h; cases h)
  | .str _, .arr _ => isFalse (by intro h; cases h)
  | .str _, .obj _ => isFalse (by intro h; cases h)
  | .arr _, .null => isFalse (by intro h; cases h)
  | .arr _, .bool _ => isFalse (by intro h; cases h)
  | .arr _, .num _ => isFalse (by intro h; cases h)
  | .arr _, .str _ => isFalse (by intro h; cases h)
  | .arr _, .obj _ => isFalse (by intro h; cases h)
  | .obj _, .null => isFalse (by intro h; cases h)
  | .obj _, .bool _ => isFalse (by intro h; cases h)
  | .obj _, .num _ => isFalse (by intro h; cases h)
  | .obj _, .str _ => isFalse (by intro h; cases h)
  | .obj _, .arr _ => isFalse (by intro h; cases h)

def jsonDecEqList : (xs ys : List Json) → Decidable (xs = ys)
  | [], [] => isTrue rfl
  | [], _ :: _ => isFalse (by intro h; cases h)
  | _ :: _, [] => isFalse (by intro h; cases h)
  | x :: xs, y :: ys =>
    match jsonDecEq x y, jsonDecEqList xs ys with
    | isTrue h1, isTrue h2 => isTrue (by rw [h1, h2])
    | isFalse h1, _ => isFalse (by intro hc; cases hc; exact h1 rfl)
    | _, isFalse h2 => isFalse (by intro hc; cases hc; exact h2 rfl)

def jsonDecEqFields : (xs ys : List (String × Json)) → Decidable (xs = ys)
  | [], [] => isTrue rfl
  | [], _ :: _ => isFalse (by intro h; cases h)
  | _ :: _, [] => isFalse (by intro h; cases h)
  | (k, x) :: xs, (l, y) :: ys =>
    match decEq k l, jsonDecEq x y, jsonDecEqFields xs ys with
    | isTrue h0, isTrue h1, isTrue h2 => isTrue (by rw [h0, h1, h2])
    | isFalse h0, _, _ => isFalse (by intro hc; cases hc; exact h0 rfl)
    | _, isFalse h1, _ => isFalse (by intro hc; cases hc; exact h1 rfl)
    | _, _, isFalse h2 => isFalse (by intro hc; cases hc; exact h2 rfl)

end

instance : DecidableEq Json := jsonDecEq

/-- The content of a file in the cache directory: either a text that parses
to a JSON value, or a text `json.load` rejects (`json.JSONDecodeError`). -/
inductive FileData where
  | jsonContent (j : Json) : FileData
  | invalid : FileData
deriving DecidableEq

/-- One file of the cache directory: its name, content and modification time
(`os.path.getmtime`, in seconds). -/
structure DirFile where
  name : String
  content : FileData
  mtime : Int
deriving DecidableEq

/-- The cache directory, as enumerated by `os.listdir`. -/
abbrev Dir := List DirFile

/-- `os.path.exists` / `open`: find the file with the given name. -/
def lookupFile (dir : Dir) (name : String) : Option DirFile :=
  dir.find? (fun f => f.name = name)

/-- Writing a file: replaces any file of the same name. -/
def setFile (dir : Dir) (file : DirFile) : Dir :=
  file :: dir.filter (fun f => f.name ≠ file.name)

/-- `os.remove` of a single named file. -/
def removeFile (dir : Dir) (name : String) : Dir :=
  dir.filter (fun f => f.name ≠ name)

/-- Python `str.strip` of a single character: drop it from both ends. -/
def stripChar (c : Char) (s : String) : String :=
  String.mk (((s.toList.dropWhile (fun d => d = c)).reverse.dropWhile
    (fun d => d = c)).reverse)

/-- Python `endpoint.replace("/", "_")`: with a one-character pattern this
is a character-by-character substitution. -/
def replaceSlash (s : String) : String :=
  String.mk (s.toList.map (fun c => if c = '/' then '_' else c))

/-- `_get_cache_path`: the safe file name derived from an endpoint —
`endpoint.replace("/", "_").strip("_")` plus the `.json` suffix.
(The model keeps only the name inside the cache directory; the directory
prefix of the path carries no information.) -/
def cacheFileName (endpoint : String) : String :=
  stripChar '_' (replaceSlash endpoint) ++ ".json"

/-- Python `dict.get k`: JSON objects materialised by `json.load` keep the
last occurrence of a repeated key. -/
def getField (fields : List (String × Json)) (k : String) : Option Json :=
  fields.reverse.lookup k

/-- Python `dict.get k` with `None` as the default (`cached_data.get("data")`). -/
def getFieldD (fields : List (String × Json)) (k : String) : Json :=
  (getField fields k).getD Json.null

/-- Exceptions that can escape `_read_cache` (they are not in its
`except (json.JSONDecodeError, KeyError)` clause). -/
inductive PyError where
  /-- `AttributeError`: calling `.get` on a parsed value that is not a dict. -/
  | attributeError : PyError
  /-- `TypeError`: `time.time() - timestamp` with a non-numeric timestamp. -/
  | typeError : PyError
deriving DecidableEq

/-- What a call to `_read_cache` does: return a Python value (where `None`
is `Json.null`), or raise an exception not caught inside it. -/
inductive ReadResult where
  | value (v : Json) : ReadResult
  | exn (e : PyError) : ReadResult
deriving DecidableEq

/-- `_read_cache(endpoint)`.  Missing file → `None`; unparsable content →
`json.JSONDecodeError`, caught → `None`; content parsed but not a dict →
`.get` raises `AttributeError`, uncaught; `timestamp` field present but not
numeric → subtraction raises `TypeError`, uncaught (a Python `bool` is
numeric: `True` is `1`); expired (`now - timestamp > cache_expiry`) →
`None`; otherwise the `data` field (`None` when absent). -/
def readCache (cacheExpiry : Int) (dir : Dir) (now : Int)
    (endpoint : String) : ReadResult :=
  match lookupFile dir (cacheFileName endpoint) with
  | none => .value .null
  | some file =>
    match file.content with
    | .invalid => .value .null
    | .jsonContent j =>
      match j with
      | .obj fields =>
        match getField fields "timestamp" with
        | none =>
          if now - 0 > cacheExpiry then .value .null
          else .value (getFieldD fields "data")
        | some (.num t) =>
          if now - t > cacheExpiry then .value .null
          else .value (getFieldD fields "data")
        | some (.bool b) =>
          if now - (if b then 1 else 0) > cacheExpiry then .value .null
          else .value (getFieldD fields "data")
        | some _ => .exn .typeError
      | _ => .exn .attributeError

/-- `_read_cache` as a state transformer: it performs no filesystem
mutation (the source only opens the file for reading), so the directory
is returned unchanged. -/
def readCacheOp (cacheExpiry : Int) (dir : Dir) (now : Int)
    (endpoint : String) : ReadResult × Dir :=
  (readCache cacheExpiry dir now endpoint, dir)

/-- `_write_cache(endpoint, data)`: persists
`{"timestamp": now, "data": data}` at the endpoint's file, setting its
modification time.  `ioFails` models an `IOError`/`OSError` from
`open`/`json.dump`, which the source catches, logs and swallows, leaving
the directory unchanged. -/
def writeCache (dir : Dir) (now : Int) (endpoint : String) (data : Json)
    (ioFails : Bool) : Dir :=
  if ioFails then dir
  else setFile dir
    ⟨cacheFileName endpoint,
     .jsonContent (.obj [("timestamp", .num now), ("data", data)]), now⟩

/-- Python `filename.endswith(suffix)`. -/
def endsWithStr (s suffix : String) : Bool :=
  suffix.toList.isSuffixOf s.toList

/-- `invalidate_old_cache(max_age_days)`: for every `.json` file in the
directory whose modification time is strictly below
`now - max_age_days * 86400`, attempt `os.remove`; an `OSError` on one
file (`removeFails`) is caught and logged, the pass continues.  Files not
ending in `.json` are skipped.  File contents are never inspected. -/
def invalidate_old_cache (dir : Dir) (now : Int) (maxAgeDays : Int)
    (removeFails : String → Bool) : Dir :=
  let cutoff := now - maxAgeDays * 86400
  dir.filter (fun f =>
    if ¬ endsWithStr f.name ".json" then true
    else if f.mtime < cutoff then removeFails f.name
    else true)

/-- `clear_cache(endpoint=None)` — the definition at lines 269–285 of
`api_client.py`.  The class body defines `clear_cache` twice; Python binds
the name to this second definition, which performs the removal step only:
with an endpoint, remove its cache file if present; with `None`, remove
every `.json` file in the directory.  Unlike the first (shadowed)
definition, it does NOT call `invalidate_old_cache` afterwards. -/
def clear_cache (dir : Dir) (endpoint : Option String) : Dir :=
  match endpoint with
  | some ep => removeFile dir (cacheFileName ep)
  | none => dir.filter (fun f => ¬ endsWithStr f.name ".json")

/-- The FIRST definition of `clear_cache` (lines 114–133 of
`api_client.py`), which is shadowed by the second and therefore dead code:
the same removal step followed by
`self.invalidate_old_cache(self.max_cache_age_days)`. -/
def clear_cache_first_def (dir : Dir) (now : Int) (maxCacheAgeDays : Int)
    (removeFails : String → Bool) (endpoint : Option String) : Dir :=
  invalidate_old_cache (clear_cache dir endpoint) now maxCacheAgeDays removeFails

/-- A `requests.exceptions.RequestException` raised by one network attempt
(connection error, non-success status via `raise_for_status`, or an
unparsable body via `response.json()`), carrying its reason. -/
structure NetErr where
  reason : String
deriving DecidableEq

/-- What a call to `_make_request` does: return data, raise the
`RequestException` of the last failed attempt, or propagate an exception
that escaped `_read_cache`. -/
inductive ReqOutcome where
  | ok (v : Json) : ReqOutcome
  | netError (e : NetErr) : ReqOutcome
  | pyError (e : PyError) : ReqOutcome
deriving DecidableEq

/-- Observable effect of a `_make_request` call: its outcome, the cache
directory afterwards, the number of `requests.get` attempts made, and the
number of `time.sleep(1)` pauses taken. -/
structure ReqResult where
  outcome : ReqOutcome
  dir : Dir
  attempts : Nat
  sleeps : Nat
deriving DecidableEq

/-- `_make_request(endpoint, use_cache)`.  `net k` is the result of the
`(k+1)`-st network attempt (`requests.get` + `raise_for_status` +
`.json()`).  With `use_cache`, first `_read_cache`; a non-`None` value is
returned at once with no network attempt (Python `is not None`, so a
cached `data` of `null` reads as a miss); an exception escaping
`_read_cache` propagates.  Otherwise: attempt 1; on success cache the
response (when `use_cache`; `writeFails` models a swallowed write error)
and return it; on `RequestException`, `time.sleep(1)` and attempt 2 (the
write there stamps the post-sleep clock `now + 1`); on a second
`RequestException` re-raise it — there is no third attempt and no stale
fallback. -/
def makeRequest (cacheExpiry : Int) (dir : Dir) (now : Int) (endpoint : String)
    (useCache : Bool) (net : Nat → Except NetErr Json) (writeFails : Bool) :
    ReqResult :=
  let hit : Option ReqResult :=
    if useCache then
      match readCache cacheExpiry dir now endpoint with
      | .exn e => some ⟨.pyError e, dir, 0, 0⟩
      | .value v => if v = Json.null then none else some ⟨.ok v, dir, 0, 0⟩
    else none
  match hit with
  | some r => r
  | none =>
    match net 0 with
    | .ok data =>
      ⟨.ok data,
       if useCache then writeCache dir now endpoint data writeFails else dir,
       1, 0⟩
    | .error _ =>
      match net 1 with
      | .ok data =>
        ⟨.ok data,
         if useCache then writeCache dir (now + 1) endpoint data writeFails
         else dir,
         2, 1⟩
      | .error e1 => ⟨.netError e1, dir, 2, 1⟩

end SpacexClient

namespace SpacexClient

/-- C1: the claim says every call to `clear_cache` performs an age-based
eviction pass (`invalidate_old_cache` with the configured
`max_cache_age_days`) after the removal step.  The class body of
`SpaceXAPIClient` defines `clear_cache` twice, and Python binds the name to
the second definition (lines 269–285), which omits the
`invalidate_old_cache` call present in the first (lines 114–133, now dead
code together with its comment announcing the pass).  Concretely: a
directory holding only `a.json` with modification time 0, at `now` =
10 days and `max_cache_age_days` = 1, after `clear_cache("/b")` still
holds `a.json` under the bound definition, while the shadowed first
definition — the documented behaviour — would have evicted it. -/
theorem clear_cache_skips_eviction_pass :
    clear_cache
      [⟨"a.json", .jsonContent (.obj [("timestamp", .num 800000),
        ("data", .num 1)]), 0⟩] (some "/b")
      = [⟨"a.json", .jsonContent (.obj [("timestamp", .num 800000),
        ("data", .num 1)]), 0⟩]
    ∧ clear_cache_first_def
      [⟨"a.json", .jsonContent (.obj [("timestamp", .num 800000),
        ("data", .num 1)]), 0⟩] (10 * 86400) 1 (fun _ => false) (some "/b")
      = [] := by
  constructor <;> decide

/-- C2: the claim says `_read_cache` returns `None` and lets no exception
escape for every malformed cache file.  The source catches only
`json.JSONDecodeError` and `KeyError`; a file whose content is valid JSON
but not an object — e.g. the array `[1, 2, 3]` — makes
`cached_data.get("timestamp", 0)` raise an uncaught `AttributeError`, and
an object whose `timestamp` field is a string makes
`time.time() - timestamp` raise an uncaught `TypeError`. -/
theorem read_cache_attribute_error_escapes :
    readCache 3600
      [⟨"rockets.json", .jsonContent (.arr [.num 1, .num 2, .num 3]), 0⟩]
      100 "/rockets"
      = .exn .attributeError
    ∧ readCache 3600
      [⟨"rockets.json", .jsonContent (.obj [("timestamp", .str "soon"),
        ("data", .num 1)]), 0⟩]
      100 "/rockets"
      = .exn .typeError := by
  constructor <;> decide

/-- C3: with `use_cache` and a cache read that yields no value (missing,
recovered-malformed or expired entry, i.e. `_read_cache` returns `None`),
when both network attempts fail `_make_request` re-raises the last
`RequestException`: the caller gets the error and no value, the directory
— including any stale entry still on disk — is untouched and never
substituted as a fallback result. -/
theorem network_failure_propagates_no_stale_fallback (cacheExpiry : Int)
    (dir : Dir) (now : Int) (endpoint : String)
    (net : Nat → Except NetErr Json) (writeFails : Bool) (e0 e1 : NetErr)
    (hmiss : readCache cacheExpiry dir now endpoint = .value .null)
    (h0 : net 0 = .error e0) (h1 : net 1 = .error e1) :
    makeRequest cacheExpiry dir now endpoint true net writeFails
      = ⟨.netError e1, dir, 2, 1⟩ := by
  simp [makeRequest, hmiss, h0, h1]

/-- Witness for C3: a stale entry (written at 50, read at 100 with expiry
40) sits on disk; both attempts fail with a connection error; the call
raises that error after 2 attempts and the stale entry is not returned. -/
theorem network_failure_propagates_no_stale_fallback_witness :
    makeRequest 40
      [⟨"rockets.json", .jsonContent (.obj [("timestamp", .num 50),
        ("data", .arr [.num 7])]), 50⟩]
      100 "/rockets" true (fun _ => .error ⟨"conn"⟩) false
      = ⟨.netError ⟨"conn"⟩,
        [⟨"rockets.json", .jsonContent (.obj [("timestamp", .num 50),
          ("data", .arr [.num 7])]), 50⟩], 2, 1⟩ :=
  network_failure_propagates_no_stale_fallback 40 _ 100 "/rockets" _ false
    ⟨"conn"⟩ ⟨"conn"⟩ (by decide) rfl rfl

/-- C4: with `use_cache` and a well-formed, unexpired entry for the
endpoint (an object with a numeric `timestamp` within `cache_expiry` of
`now`, whose `data` field is not `null` — per the data model a cached
value is an array or object, never `null`), `_make_request` returns the
cached value with zero network attempts, whatever the network would do. -/
theorem fresh_cache_hit_short_circuits (cacheExpiry : Int) (dir : Dir)
    (now : Int) (endpoint : String) (net : Nat → Except NetErr Json)
    (writeFails : Bool) (file : DirFile) (fields : List (String × Json))
    (t : Int) (d : Json)
    (hfile : lookupFile dir (cacheFileName endpoint) = some file)
    (hcontent : file.content = .jsonContent (.obj fields))
    (hts : getField fields "timestamp" = some (.num t))
    (hfresh : now - t ≤ cacheExpiry)
    (hdata : getFieldD fields "data" = d)
    (hnn : d ≠ Json.null) :
    makeRequest cacheExpiry dir now endpoint true net writeFails
      = ⟨.ok d, dir, 0, 0⟩ := by
  simp [makeRequest, readCache, hfile, hcontent, hts, hdata,
    not_lt.mpr hfresh, hnn]

/-- Witness for C4: a fresh `/rockets` entry is returned as-is with 0
attempts even though every network request fails. -/
theorem fresh_cache_hit_short_circuits_witness :
    makeRequest 3600
      [⟨"rockets.json", .jsonContent (.obj [("timestamp", .num 90),
        ("data", .arr [.num 7])]), 90⟩]
      100 "/rockets" true (fun _ => .error ⟨"down"⟩) false
      = ⟨.ok (.arr [.num 7]),
        [⟨"rockets.json", .jsonContent (.obj [("timestamp", .num 90),
          ("data", .arr [.num 7])]), 90⟩], 0, 0⟩ :=
  fresh_cache_hit_short_circuits 3600 _ 100 "/rockets" _ false
    ⟨"rockets.json", .jsonContent (.obj [("timestamp", .num 90),
      ("data", .arr [.num 7])]), 90⟩
    [("timestamp", .num 90), ("data", .arr [.num 7])] 90 (.arr [.num 7])
    (by decide) rfl (by decide) (by decide) (by decide) (by decide)

/-- C5: when the cache yields nothing (or is bypassed) and every network
attempt fails, `_make_request` makes exactly 2 attempts (`range(2)` — a
third is impossible), takes exactly one `time.sleep(1)` pause between
them, and raises the exception of the last attempt. -/
theorem retry_exhaustion_two_attempts (cacheExpiry : Int) (dir : Dir)
    (now : Int) (endpoint : String) (useCache : Bool)
    (net : Nat → Except NetErr Json) (writeFails : Bool) (e0 e1 : NetErr)
    (hmiss : useCache = true →
      readCache cacheExpiry dir now endpoint = .value .null)
    (h0 : net 0 = .error e0) (h1 : net 1 = .error e1) :
    makeRequest cacheExpiry dir now endpoint useCache net writeFails
      = ⟨.netError e1, dir, 2, 1⟩ := by
  cases useCache with
  | false => simp [makeRequest, h0, h1]
  | true => simp [makeRequest, hmiss rfl, h0, h1]

/-- Witness for C5: with the cache bypassed and a network that always
times out, the call makes exactly 2 attempts, 1 pause, and raises the
last timeout. -/
theorem retry_exhaustion_two_attempts_witness :
    makeRequest 3600 [] 100 "/launches" false (fun _ => .error ⟨"timeout"⟩)
      false
      = ⟨.netError ⟨"timeout"⟩, [], 2, 1⟩ :=
  retry_exhaustion_two_attempts 3600 [] 100 "/launches" false _ false
    ⟨"timeout"⟩ ⟨"timeout"⟩ (by simp) rfl rfl

/-- C6: reading a well-formed entry whose timestamp satisfies
`now - timestamp > cache_expiry` returns `None`, and `_read_cache`
performs no filesystem mutation: the expired file is left in place,
unchanged (`readCacheOp` returns the directory exactly as it was). -/
theorem expired_read_returns_absent_leaves_entry (cacheExpiry : Int)
    (dir : Dir) (now : Int) (endpoint : String) (file : DirFile)
    (fields : List (String × Json)) (t : Int)
    (hfile : lookupFile dir (cacheFileName endpoint) = some file)
    (hcontent : file.content = .jsonContent (.obj fields))
    (hts : getField fields "timestamp" = some (.num t))
    (hexp : now - t > cacheExpiry) :
    readCacheOp cacheExpiry dir now endpoint = (.value .null, dir) := by
  simp [readCacheOp, readCache, hfile, hcontent, hts, hexp]

/-- Witness for C6: an entry written at 50 and read at 100 with expiry 40
reads as absent while the file is still there. -/
theorem expired_read_returns_absent_leaves_entry_witness :
    readCacheOp 40
      [⟨"rockets.json", .jsonContent (.obj [("timestamp", .num 50),
        ("data", .arr [.num 7])]), 50⟩]
      100 "/rockets"
      = (.value .null,
        [⟨"rockets.json", .jsonContent (.obj [("timestamp", .num 50),
          ("data", .arr [.num 7])]), 50⟩]) :=
  expired_read_returns_absent_leaves_entry 40 _ 100 "/rockets"
    ⟨"rockets.json", .jsonContent (.obj [("timestamp", .num 50),
      ("data", .arr [.num 7])]), 50⟩
    [("timestamp", .num 50), ("data", .arr [.num 7])] 50
    (by decide) rfl (by decide) (by decide)

/-- C7: for every endpoint, value and prior directory state, a successful
`_write_cache` followed by `_read_cache` within `cache_expiry` seconds
returns exactly the written value, unchanged. -/
theorem read_after_write_returns_value (cacheExpiry : Int) (dir : Dir)
    (tw tr : Int) (endpoint : String) (data : Json)
    (hfresh : tr - tw ≤ cacheExpiry) :
    readCache cacheExpiry (writeCache dir tw endpoint data false) tr endpoint
      = .value data := by
  simp [readCache, writeCache, lookupFile, setFile, getField, getFieldD,
    List.lookup, List.find?]
  intro h
  exact absurd hfresh (not_le.mpr h)

/-- Witness for C7: write a rocket array at 50, read it back at 60 with
expiry 3600. -/
theorem read_after_write_returns_value_witness :
    readCache 3600
      (writeCache [] 50 "/rockets" (Json.arr [Json.str "Falcon 9"]) false)
      60 "/rockets"
      = .value (Json.arr [Json.str "Falcon 9"]) :=
  read_after_write_returns_value 3600 [] 50 60 "/rockets"
    (Json.arr [Json.str "Falcon 9"]) (by decide)

/-- C8: with `use_cache` and a cache miss, when a network attempt succeeds
but persisting the response fails with an I/O error (caught and swallowed
in `_write_cache`), the fetch still returns the fresh network value —
whether the success came on the first attempt or on the retry — and the
directory is simply left unchanged. -/
theorem cache_write_failure_swallowed (cacheExpiry : Int) (dir : Dir)
    (now : Int) (endpoint : String) (net : Nat → Except NetErr Json)
    (data : Json) (e0 : NetErr)
    (hmiss : readCache cacheExpiry dir now endpoint = .value .null) :
    (net 0 = .ok data →
      makeRequest cacheExpiry dir now endpoint true net true
        = ⟨.ok data, dir, 1, 0⟩)
    ∧ (net 0 = .error e0 → net 1 = .ok data →
      makeRequest cacheExpiry dir now endpoint true net true
        = ⟨.ok data, dir, 2, 1⟩) := by
  constructor
  · intro h0
    simp [makeRequest, hmiss, h0, writeCache]
  · intro h0 h1
    simp [makeRequest, hmiss, h0, h1, writeCache]

/-- Witness for C8: empty cache, first attempt succeeds, the cache write
fails — the fetch still returns the array and the directory stays empty. -/
theorem cache_write_failure_swallowed_witness :
    makeRequest 3600 [] 100 "/launchpads" true
      (fun _ => .ok (.arr [.num 1])) true
      = ⟨.ok (.arr [.num 1]), [], 1, 0⟩ :=
  (cache_write_failure_swallowed 3600 [] 100 "/launchpads" _ (.arr [.num 1])
    ⟨"unused"⟩ (by decide)).1 rfl

/-- C9: an `invalidate_old_cache(max_age_days)` pass removes every `.json`
file with modification time strictly older than
`now - max_age_days * 86400` (content — hence logical expiry — is never
inspected) whenever its deletion does not fail; a file whose deletion
fails is merely kept, without aborting the rest of the pass (the other
old files are still removed, whatever `removeFails` does elsewhere);
every file not older than the cutoff is left untouched; and the pass is
idempotent: running it twice with the same clock leaves exactly the state
of running it once. -/
theorem invalidate_old_cache_eviction_pass (dir : Dir) (now : Int)
    (maxAgeDays : Int) (removeFails : String → Bool) :
    (∀ f : DirFile, f ∈ dir → endsWithStr f.name ".json" = true →
      f.mtime < now - maxAgeDays * 86400 → removeFails f.name = false →
      f ∉ invalidate_old_cache dir now maxAgeDays removeFails)
    ∧ (∀ f : DirFile, f ∈ dir → ¬(f.mtime < now - maxAgeDays * 86400) →
      f ∈ invalidate_old_cache dir now maxAgeDays removeFails)
    ∧ invalidate_old_cache
        (invalidate_old_cache dir now maxAgeDays removeFails)
        now maxAgeDays removeFails
      = invalidate_old_cache dir now maxAgeDays removeFails := by
  refine ⟨?_, ?_, ?_⟩
  · intro f hf hj hold hrf hmem
    rw [invalidate_old_cache, List.mem_filter] at hmem
    simp [hj, hold, hrf] at hmem
  · intro f hf hyoung
    rw [invalidate_old_cache, List.mem_filter]
    refine ⟨hf, ?_⟩
    simp [hyoung]
  · unfold invalidate_old_cache
    rw [List.filter_filter]
    simp

/-- Witness for C9: a 10-day-old cache file is removed by a pass with a
7-day maximum age. -/
theorem invalidate_old_cache_eviction_pass_witness :
    (⟨"old.json", .jsonContent .null, 0⟩ : DirFile)
      ∉ invalidate_old_cache [⟨"old.json", .jsonContent .null, 0⟩]
        (10 * 86400) 7 (fun _ => false) :=
  (invalidate_old_cache_eviction_pass [⟨"old.json", .jsonContent .null, 0⟩]
    (10 * 86400) 7 (fun _ => false)).1
    ⟨"old.json", .jsonContent .null, 0⟩ (by decide) (by decide) (by decide)
    rfl

/-- C10: a file whose name does not end in `.json` is preserved by the
clear-all form of `clear_cache` and by `invalidate_old_cache`, whatever
its age: both loops skip names not ending in `.json`. -/
theorem non_json_files_never_removed (dir : Dir) (now : Int)
    (maxAgeDays : Int) (removeFails : String → Bool) (f : DirFile)
    (hmem : f ∈ dir) (hnj : endsWithStr f.name ".json" = false) :
    f ∈ clear_cache dir none
    ∧ f ∈ invalidate_old_cache dir now maxAgeDays removeFails := by
  constructor
  · rw [clear_cache, List.mem_filter]
    simp [hmem, hnj]
  · rw [invalidate_old_cache, List.mem_filter]
    simp [hmem, hnj]

/-- Witness for C10: an ancient `notes.txt` survives both a clear-all and
an eviction pass. -/
theorem non_json_files_never_removed_witness :
    (⟨"notes.txt", .invalid, 0⟩ : DirFile)
      ∈ clear_cache [⟨"notes.txt", .invalid, 0⟩] none
    ∧ (⟨"notes.txt", .invalid, 0⟩ : DirFile)
      ∈ invalidate_old_cache [⟨"notes.txt", .invalid, 0⟩] (10 * 86400) 1
        (fun _ => false) :=
  non_json_files_never_removed [⟨"notes.txt", .invalid, 0⟩] (10 * 86400) 1
    (fun _ => false) ⟨"notes.txt", .invalid, 0⟩ (by decide) (by decide)

end SpacexClient
